import Mathlib

/-!
# Verification of the geodraft versioned-editing core

Shallow embedding of `geodraft/versioned_editing` (models.py, services.py,
api_views.py, permissions.py) and proofs about its conflict detection,
merge, conflict resolution, merge-request workflow and permission logic.

Modelling conventions:
* `geometry` and `properties` are opaque values modelled as `Nat`; GEOS
  spatial equality (`geometry.equals`) and Python dict equality (`==`)
  are both modelled as equality on the abstract value.
* users, groups, branches and features are identified by `Nat` ids.
* Django rows become Lean structures; a branch's ledger is the list of its
  `FeatureVersion` rows in insertion order.
-/

namespace Geodraft

/-- `FeatureVersion.OPERATION_CHOICES` from models.py. -/
inductive Operation where
  | CREATE | UPDATE | DELETE | MERGE
deriving DecidableEq, Repr

/-- `MergeConflict.CONFLICT_TYPE_CHOICES` from models.py. -/
inductive ConflictType where
  | GEOMETRY | PROPERTIES | BOTH | DELETE
deriving DecidableEq, Repr

/-- A `FeatureVersion` row (models.py).  `geometry` and `properties` are
opaque values; `created_by` is a user id; `branchName` carries
`branch.name` (used by the merge comment). -/
structure FV where
  branch : Nat
  branchName : String
  feature_id : Nat
  version : Nat
  geometry : Nat
  properties : Nat
  operation : Operation
  is_deleted : Bool
  created_by : Nat
  comment : String
deriving DecidableEq, Repr

/-- `ConflictDetector._detect_conflict_type` (services.py lines 59-88),
a sequence of early-return `if`s.  The "both modified" block (both
versions > 1) returns a value only when geometry or properties differ;
when both are equal the Python code falls through to the delete checks,
which require no minimum version on the deleted side. -/
def detectConflictType (s t : FV) : Option ConflictType :=
  if s.version = 1 ∧ t.version = 1 then
    none
  else if s.version > 1 ∧ t.version > 1 ∧
      (s.geometry ≠ t.geometry ∨ s.properties ≠ t.properties) then
    if s.geometry ≠ t.geometry ∧ s.properties ≠ t.properties then some .BOTH
    else if s.geometry ≠ t.geometry then some .GEOMETRY
    else some .PROPERTIES
  else if s.is_deleted = true ∧ t.version > 1 ∧ t.is_deleted = false then
    some .DELETE
  else if t.is_deleted = true ∧ s.version > 1 ∧ s.is_deleted = false then
    some .DELETE
  else
    none

/-- The ordered rule table of the specification (§4.3), first match wins,
exactly as the spec words it: rule 2 (both versions > 1) always
terminates the classification, and rule 3 (DELETE) requires the deleted
side itself to have version > 1. -/
def specConflictType (s t : FV) : Option ConflictType :=
  if s.version = 1 ∧ t.version = 1 then
    none
  else if s.version > 1 ∧ t.version > 1 then
    if s.geometry ≠ t.geometry ∧ s.properties ≠ t.properties then some .BOTH
    else if s.geometry ≠ t.geometry then some .GEOMETRY
    else if s.properties ≠ t.properties then some .PROPERTIES
    else none
  else if (s.is_deleted = true ∧ s.version > 1 ∧ t.version > 1 ∧ t.is_deleted = false) ∨
          (t.is_deleted = true ∧ t.version > 1 ∧ s.version > 1 ∧ s.is_deleted = false) then
    some .DELETE
  else
    none

/-- The amended rule table: rule 2 fires only when geometry or properties
actually differ (when both are equal the classification falls through to
the delete rule instead of terminating), and the delete rule places no
version requirement on the deleted side. -/
def specAmendedConflictType (s t : FV) : Option ConflictType :=
  if s.version = 1 ∧ t.version = 1 then
    none
  else if s.version > 1 ∧ t.version > 1 ∧
      (s.geometry ≠ t.geometry ∨ s.properties ≠ t.properties) then
    if s.geometry ≠ t.geometry ∧ s.properties ≠ t.properties then some .BOTH
    else if s.geometry ≠ t.geometry then some .GEOMETRY
    else some .PROPERTIES
  else if (s.is_deleted = true ∧ t.version > 1 ∧ t.is_deleted = false) ∨
          (t.is_deleted = true ∧ s.version > 1 ∧ s.is_deleted = false) then
    some .DELETE
  else
    none

/-- A concrete `FeatureVersion` value used in counterexamples. -/
def sampleFV : FV :=
  { branch := 0, branchName := "b", feature_id := 7, version := 1, geometry := 0,
    properties := 0, operation := .CREATE, is_deleted := false, created_by := 1,
    comment := "" }

/-- The feature ids of a branch's rows, first occurrence kept (the Python
dict keys of `_get_latest_features`; its query orders rows by
`(feature_id, -version)`, so key order there is ascending `feature_id` —
no statement below depends on the key order). -/
def featureKeys (rows : List FV) : List Nat :=
  rows.foldl (fun acc r => if r.feature_id ∈ acc then acc else acc ++ [r.feature_id]) []

/-- The highest-numbered row of a feature in a ledger, as kept by
`_get_latest_features` (services.py lines 45-57 and 131-142): ordering by
descending version and keeping the first row per feature yields the row
with the maximal version. -/
def latestFor (rows : List FV) (f : Nat) : Option FV :=
  rows.foldl (fun acc r =>
    if r.feature_id = f then
      match acc with
      | none => some r
      | some b => if r.version > b.version then some r else acc
    else acc) none

/-- `_get_latest_features`: the map from feature id to its latest row,
as an association list. -/
def latestByFeature (rows : List FV) : List (Nat × FV) :=
  (featureKeys rows).filterMap (fun f => (latestFor rows f).map (fun v => (f, v)))

/-- `MergeService._versions_equal` (services.py lines 144-151). -/
def versionsEqual (a b : FV) : Bool :=
  a.geometry == b.geometry && a.properties == b.properties

/-- `MergeService._create_merged_version` (services.py lines 153-177):
next version number is one past the target's current latest for that
feature (or 1 when the feature is absent), content and author are copied
from the source version, operation is MERGE. -/
def createMergedVersion (sv : FV) (targetRows : List FV) (tb : Nat) (tbName : String) : FV :=
  let nextVersion :=
    match latestFor targetRows sv.feature_id with
    | some l => l.version + 1
    | none => 1
  { branch := tb, branchName := tbName, feature_id := sv.feature_id,
    version := nextVersion, geometry := sv.geometry, properties := sv.properties,
    operation := .MERGE, is_deleted := false, created_by := sv.created_by,
    comment := "Merged from branch " ++ sv.branchName }

/-- One iteration of the loop in `MergeService.merge_branches`:
`targetRows` is the snapshot the `target_features` dict was built from,
while `_create_merged_version` queries the store, which also holds the
rows created earlier in the same transaction (`acc.1`). -/
def mergeStep (targetRows : List FV) (tb : Nat) (tbName : String)
    (acc : List FV × Nat) (p : Nat × FV) : List FV × Nat :=
  if p.2.is_deleted then acc
  else
    match latestFor targetRows p.1 with
    | some tv =>
      if p.2.version > tv.version ∨ ¬versionsEqual p.2 tv = true then
        (acc.1 ++ [createMergedVersion p.2 (targetRows ++ acc.1) tb tbName], acc.2 + 1)
      else acc
    | none => (acc.1 ++ [createMergedVersion p.2 (targetRows ++ acc.1) tb tbName], acc.2 + 1)

/-- `MergeService.merge_branches` (services.py lines 96-129): returns the
rows appended to the target branch and the merged count. -/
def mergeBranches (sourceRows targetRows : List FV) (tb : Nat) (tbName : String) :
    List FV × Nat :=
  (latestByFeature sourceRows).foldl (mergeStep targetRows tb tbName) ([], 0)

/-- Every non-deleted latest source feature is matched in the target by a
latest version of equal content whose version number is at least the
source's.  Under this condition a merge makes no writes. -/
def sourceDominated (sourceRows targetRows : List FV) : Bool :=
  (latestByFeature sourceRows).all (fun p =>
    p.2.is_deleted ||
      (match latestFor targetRows p.1 with
       | some tv => decide (p.2.version ≤ tv.version) && versionsEqual p.2 tv
       | none => false))

/-- Source ledger for the C2 counterexample: one feature whose latest
version number is 3. -/
def c2src : List FV :=
  [{ branch := 10, branchName := "dev", feature_id := 1, version := 3, geometry := 5,
     properties := 5, operation := .UPDATE, is_deleted := false, created_by := 1,
     comment := "" }]

/-- Target ledger for the C2 counterexample: the same feature still at
version 1 with different content. -/
def c2tgt : List FV :=
  [{ branch := 20, branchName := "master", feature_id := 1, version := 1, geometry := 9,
     properties := 9, operation := .CREATE, is_deleted := false, created_by := 2,
     comment := "" }]

/-- One conflict dictionary produced by
`ConflictDetector.detect_conflicts`. -/
structure ConflictEntry where
  feature_id : Nat
  conflict_type : ConflictType
  source_version : FV
  target_version : FV
deriving DecidableEq, Repr

/-- `ConflictDetector.detect_conflicts` (services.py lines 18-43): for
each latest source feature also present in the target's latest map,
record the classified conflict, if any. -/
def detectConflicts (sourceRows targetRows : List FV) : List ConflictEntry :=
  (latestByFeature sourceRows).filterMap fun p =>
    match latestFor targetRows p.1 with
    | some tv =>
      (detectConflictType p.2 tv).map fun ty =>
        { feature_id := p.1, conflict_type := ty, source_version := p.2,
          target_version := tv }
    | none => none

/-- A `MergeConflict` row (models.py), resolution fields included. -/
structure Conflict where
  feature_id : Nat
  conflict_type : ConflictType
  source_version : FV
  target_version : Option FV
  resolved : Bool
  resolution_strategy : Option String
  resolved_geometry : Option Nat
  resolved_properties : Option Nat
  resolved_by : Option Nat
deriving DecidableEq, Repr

/-- The empty `{}` properties document the TARGET strategy stores when the
conflict has no target version. -/
def emptyProps : Nat := 0

/-- Errors raised by `ConflictResolver.resolve_conflict`:
`validationError` models the `ValueError` raises (the spec's
`ValidationError`), `nameErrorTimezone` models the `NameError` raised at
`timezone.now()` — the name `timezone` is never imported in services.py. -/
inductive ResolveError where
  | validationError (msg : String)
  | nameErrorTimezone
deriving DecidableEq, Repr

/-- The tail of `resolve_conflict` after the strategy dispatch
(services.py lines 212-216): assigns strategy, resolved flag and
resolver on the in-memory object, then evaluates `timezone.now()`;
`timezone` is not defined in the services module, so a NameError is
raised before `conflict.save()` runs. -/
def finishResolve (c : Conflict) (strategy : String) (resolvedBy : Nat) :
    Except ResolveError Conflict :=
  let c1 := { c with resolution_strategy := some strategy, resolved := true,
                     resolved_by := some resolvedBy }
  let _ := c1
  .error .nameErrorTimezone

/-- `ConflictResolver.resolve_conflict` (services.py lines 185-220). -/
def resolveConflict (c : Conflict) (strategy : String) (resolvedBy : Nat)
    (manualGeometry manualProperties : Option Nat) : Except ResolveError Conflict :=
  if strategy = "SOURCE" then
    finishResolve
      { c with resolved_geometry := some c.source_version.geometry,
               resolved_properties := some c.source_version.properties }
      strategy resolvedBy
  else if strategy = "TARGET" then
    finishResolve
      { c with resolved_geometry := c.target_version.map (·.geometry),
               resolved_properties := some (match c.target_version with
                 | some tv => tv.properties
                 | none => emptyProps) }
      strategy resolvedBy
  else if strategy = "MANUAL" then
    match manualGeometry, manualProperties with
    | some g, some p =>
      finishResolve
        { c with resolved_geometry := some g, resolved_properties := some p }
        strategy resolvedBy
    | _, _ => .error (.validationError "Manual resolution requires geometry and properties")
  else
    .error (.validationError ("Invalid resolution strategy: " ++ strategy))

/-- The conflict row as persisted after a `resolve_conflict` call: the
call runs under `transaction.atomic`, so when an exception escapes,
nothing is committed and the row keeps its prior state. -/
def resolveConflictPersisted (c : Conflict) (strategy : String) (resolvedBy : Nat)
    (manualGeometry manualProperties : Option Nat) : Conflict :=
  match resolveConflict c strategy resolvedBy manualGeometry manualProperties with
  | .ok c1 => c1
  | .error _ => c

/-- A resolution request the spec deems valid: strategy SOURCE, TARGET,
or MANUAL with both manual fields supplied. -/
def validResolution (strategy : String) (manualGeometry manualProperties : Option Nat) :
    Prop :=
  strategy = "SOURCE" ∨ strategy = "TARGET" ∨
    (strategy = "MANUAL" ∧ manualGeometry.isSome = true ∧ manualProperties.isSome = true)

/-- A concrete unresolved conflict used in witnesses. -/
def sampleConflict : Conflict :=
  { feature_id := 7, conflict_type := .BOTH, source_version := sampleFV,
    target_version := some sampleFV, resolved := false, resolution_strategy := none,
    resolved_geometry := none, resolved_properties := none, resolved_by := none }

/-- The acting user as the views see it: id, superuser flag, and
`user.profile.role` when the profile attribute chain exists. -/
structure UserCtx where
  userId : Nat
  is_superuser : Bool
  profileRole : Option String
deriving DecidableEq, Repr

/-- A `UserRole` row (models.py lines 17-71). -/
structure RoleRow where
  user : Nat
  group : Nat
  role : String
  can_approve_merges : Bool
  can_manage_branches : Bool
deriving DecidableEq, Repr

/-- `MergeRequestViewSet._can_approve` (api_views.py lines 380-386):
superuser, or `user.profile.role` in `['validator', 'admin']` — no group
scoping and no `can_approve_merges` check. -/
def canApproveApi (u : UserCtx) : Bool :=
  u.is_superuser ||
    (match u.profileRole with
     | some r => r == "validator" || r == "admin"
     | none => false)

/-- `MergeRequest.can_user_approve` (models.py lines 280-295): superuser,
or a validator/admin `UserRole` with `can_approve_merges` in the target
branch's group; refuses everyone when the target branch has no group. -/
def canUserApprove (roles : List RoleRow) (u : UserCtx) (targetGroup : Option Nat) :
    Bool :=
  if u.is_superuser then true
  else
    match targetGroup with
    | some g =>
      roles.any fun r =>
        r.user == u.userId && r.group == g &&
          (r.role == "validator" || r.role == "admin") && r.can_approve_merges
    | none => false

/-- `MergeRequest.STATUS_CHOICES` from models.py. -/
inductive MRStatus where
  | pending | conflicts | approved | rejected | merged
deriving DecidableEq, Repr

/-- A `MergeRequest` row (models.py lines 214-278), branches by id. -/
structure MR where
  source_branch : Nat
  target_branch : Nat
  status : MRStatus
  reviewed_by : Option Nat
  review_comment : String
deriving DecidableEq, Repr

/-- `EditBranch.STATUS_CHOICES` from models.py. -/
inductive BranchStatus where
  | active | merged | closed | deleted
deriving DecidableEq, Repr

/-- An `EditBranch` row (models.py lines 74-160). -/
structure BranchRec where
  name : String
  parent_branch : Option Nat
  group : Option Nat
  created_by : Nat
  status : BranchStatus
deriving DecidableEq, Repr

/-- `EditBranch.is_master` (models.py lines 141-143). -/
def BranchRec.is_master (b : BranchRec) : Bool :=
  b.parent_branch.isNone && b.name == "master"

/-- The outcome of `MergeRequestViewSet.approve`: HTTP 403, HTTP 400
(the spec's `ConflictError`, carrying the unresolved count), or success
with the merged count. -/
inductive ApproveOutcome where
  | forbidden
  | unresolvedConflicts (n : Nat)
  | mergedOk (count : Nat)
deriving DecidableEq, Repr

/-- The state `approve`/`reject` read and write: the merge request, its
bound conflicts, the source branch row and the target branch ledger. -/
structure WorkflowState where
  mr : MR
  mrConflicts : List Conflict
  sourceBranch : BranchRec
  targetRows : List FV
deriving DecidableEq, Repr

/-- `MergeRequestViewSet.approve` (api_views.py lines 281-337): permission
check, unresolved-conflicts check, then merge, set the merge request and
the source branch to `merged`.  The current status of the merge request
is never read. -/
def approveMergeRequest (u : UserCtx) (st : WorkflowState) (sourceRows : List FV)
    (tb : Nat) (tbName : String) : ApproveOutcome × WorkflowState :=
  if !canApproveApi u then (.forbidden, st)
  else if (st.mrConflicts.filter fun c => !c.resolved).length > 0 then
    (.unresolvedConflicts ((st.mrConflicts.filter fun c => !c.resolved).length), st)
  else
    (.mergedOk (mergeBranches sourceRows st.targetRows tb tbName).2,
      { st with
        mr := { st.mr with status := .merged, reviewed_by := some u.userId },
        sourceBranch := { st.sourceBranch with status := .merged },
        targetRows := st.targetRows ++ (mergeBranches sourceRows st.targetRows tb tbName).1 })

/-- `MergeRequestViewSet.reject` (api_views.py lines 339-370): permission
check, then set status `rejected` and stamp the reviewer and comment.
The current status of the merge request is never read. -/
def rejectMergeRequest (u : UserCtx) (st : WorkflowState) (comment : String) :
    Bool × WorkflowState :=
  if !canApproveApi u then (false, st)
  else
    (true,
      { st with
        mr := { st.mr with status := .rejected,
                           reviewed_by := some u.userId,
                           review_comment := comment } })

/-- The outcome of `EditBranchViewSet.soft_delete`: HTTP 403, HTTP 400
"Cannot delete master branch" (the spec's `ConflictError`), or done. -/
inductive DeleteBranchOutcome where
  | forbidden
  | masterConflict
  | deletedOk
deriving DecidableEq, Repr

/-- `EditBranchViewSet.soft_delete` (api_views.py lines 66-96). -/
def softDeleteBranch (u : UserCtx) (b : BranchRec) : DeleteBranchOutcome × BranchRec :=
  if (b.created_by != u.userId) && !u.is_superuser then (.forbidden, b)
  else if b.is_master then (.masterConflict, b)
  else (.deletedOk, { b with status := .deleted })

/-- `PermissionManager.is_admin` (permissions.py lines 22-27). -/
def isAdmin (roles : List RoleRow) (u : UserCtx) : Bool :=
  u.is_superuser || roles.any (fun r => r.user == u.userId && r.role == "admin")

/-- `PermissionManager.can_delete_branch` (permissions.py lines 82-105). -/
def canDeleteBranch (roles : List RoleRow) (u : UserCtx) (b : BranchRec) : Bool :=
  if b.is_master then false
  else if isAdmin roles u then true
  else if b.created_by == u.userId then
    match b.group with
    | some g =>
      roles.any fun r => r.user == u.userId && r.group == g && r.can_manage_branches
    | none => true
  else false

/-- `FeatureVersionViewSet.perform_create` (api_views.py lines 126-145):
appends a row with a fresh uuid4 feature id at version 1, operation
CREATE. -/
def performCreate (store : List FV) (b : Nat) (bName : String) (fid u g p : Nat) :
    List FV :=
  store ++ [{ branch := b, branchName := bName, feature_id := fid, version := 1,
              geometry := g, properties := p, operation := .CREATE,
              is_deleted := false, created_by := u, comment := "" }]

/-- `FeatureVersionViewSet.perform_update` (api_views.py lines 147-169):
DRF's UpdateModelMixin binds the serializer to the addressed row, so
`serializer.save(..., version=old_feature.version + 1)` modifies that
row in place — same primary key, version bumped — rather than appending
a new row. -/
def performUpdate (store : List FV) (i : Nat) (u g p : Nat) : List FV :=
  match store[i]? with
  | none => store
  | some old =>
    store.set i { old with geometry := g, properties := p, operation := .UPDATE,
                           created_by := u, version := old.version + 1 }

/-- `FeatureVersionViewSet.soft_delete` (api_views.py lines 171-197):
appends a DELETE row at the addressed row's version + 1. -/
def performFeatureSoftDelete (store : List FV) (i : Nat) (u : Nat) : List FV :=
  match store[i]? with
  | none => store
  | some f =>
    store ++ [{ branch := f.branch, branchName := f.branchName,
                feature_id := f.feature_id, version := f.version + 1,
                geometry := f.geometry, properties := f.properties,
                operation := .DELETE, is_deleted := true, created_by := u,
                comment := "" }]

/-- The version numbers stored for a `(branch, feature_id)` pair. -/
def versionsOf (store : List FV) (b f : Nat) : List Nat :=
  (store.filter fun r => r.branch == b && r.feature_id == f).map (·.version)

/-- A contiguous sequence 1..N with no gaps and no duplicates. -/
def contiguousVersions (l : List Nat) : Prop :=
  l.Nodup ∧ ∀ k, k ∈ l ↔ 1 ≤ k ∧ k ≤ l.length

/-- The store of the C4 failing input: one feature created on branch 0
(one row at version 1), then updated through the API addressing that
row. -/
def c4store : List FV := performUpdate (performCreate [] 0 "master" 7 1 0 0) 0 1 3 3

/-- A terminal merge request (status `merged`) in an otherwise empty
workflow state, used by the C3 counterexample. -/
def wfMerged : WorkflowState :=
  { mr := { source_branch := 1, target_branch := 2, status := .merged,
            reviewed_by := none, review_comment := "" },
    mrConflicts := [],
    sourceBranch := { name := "dev", parent_branch := some 0, group := some 5,
                      created_by := 1, status := .active },
    targetRows := [] }

/-- A superuser. -/
def superUser : UserCtx := { userId := 0, is_superuser := true, profileRole := none }

/-- A non-superuser whose geonode profile role says "validator" but who
holds no `UserRole` row at all, in particular none in the target
branch's group. -/
def outsider : UserCtx := { userId := 3, is_superuser := false,
                            profileRole := some "validator" }

/-- A pending merge request bound to a target branch owned by group 5,
with no conflicts. -/
def wfPending : WorkflowState :=
  { mr := { source_branch := 1, target_branch := 2, status := .pending,
            reviewed_by := none, review_comment := "" },
    mrConflicts := [],
    sourceBranch := { name := "dev", parent_branch := some 0, group := some 5,
                      created_by := 1, status := .active },
    targetRows := [] }

/-- A workflow state with one unresolved conflict. -/
def wfUnresolved : WorkflowState :=
  { wfPending with mrConflicts := [sampleConflict] }

/-- The master branch row used by the C7 witness. -/
def masterBranch : BranchRec :=
  { name := "master", parent_branch := none, group := some 5, created_by := 1,
    status := .active }

end Geodraft

namespace Geodraft

/-- C1 (counterexample): with both latest versions at version 2, equal
geometry and equal properties, the source deleted and the target not,
the spec's rule table (rule 2, first match wins) reports no conflict,
but `_detect_conflict_type` falls through its "both modified" block and
reports a DELETE conflict. -/
theorem C1_counterexample :
    detectConflictType
        { sampleFV with version := 2, is_deleted := true }
        { sampleFV with version := 2 } = some .DELETE ∧
    specConflictType
        { sampleFV with version := 2, is_deleted := true }
        { sampleFV with version := 2 } = none := by
  constructor <;> decide

/-- C1 (amended): the classifier agrees everywhere with the amended rule
table, in which the both-versions->1 rule terminates only when geometry
or properties differ (equal contents fall through to the delete rule)
and the delete rule requires no minimum version on the deleted side. -/
theorem C1_amended_rule_table (s t : FV) :
    detectConflictType s t = specAmendedConflictType s t := by
  unfold detectConflictType specAmendedConflictType
  split
  · rfl
  · split
    · rfl
    · by_cases hA : s.is_deleted = true ∧ t.version > 1 ∧ t.is_deleted = false <;>
        by_cases hB : t.is_deleted = true ∧ s.version > 1 ∧ s.is_deleted = false <;>
        simp [hA, hB]

/-- A fold whose step fixes every accumulator at each list element
returns the initial accumulator. -/
theorem foldl_fixed {α β : Type} (g : α → β → α) (l : List β) (a : α)
    (h : ∀ b ∈ l, ∀ x, g x b = x) : l.foldl g a = a := by
  induction l generalizing a with
  | nil => rfl
  | cons c cs ih =>
    rw [List.foldl_cons, h c (List.mem_cons_self c cs)]
    exact ih a fun b hb x => h b (List.mem_cons_of_mem c hb) x

/-- A merge out of a dominated source makes no writes and counts zero. -/
theorem merge_of_dominated (srcRows T : List FV) (tb : Nat) (nm : String)
    (h : sourceDominated srcRows T = true) :
    mergeBranches srcRows T tb nm = ([], 0) := by
  unfold mergeBranches
  apply foldl_fixed
  intro p hp acc
  have hq := (List.all_eq_true.mp h) p hp
  unfold mergeStep
  cases hd : p.2.is_deleted with
  | true => simp [hd]
  | false =>
    rw [hd] at hq
    simp only [Bool.false_or] at hq
    cases hl : latestFor T p.1 with
    | none => rw [hl] at hq; simp at hq
    | some tv =>
      rw [hl] at hq
      simp only [Bool.and_eq_true, decide_eq_true_eq] at hq
      simp only [Bool.false_eq_true, if_false, hl]
      rw [if_neg]
      push_neg
      exact ⟨hq.1, hq.2⟩

end Geodraft

namespace Geodraft

/-- C2 (counterexample): source with one feature at version 3, target
with the same feature at version 1 and different content.  The first
merge appends a copy at target version 2; the second consecutive merge,
with no intervening source edits, still merges that feature again
(source version 3 exceeds target version 2), so its merged count is 1,
not 0. -/
theorem C2_counterexample :
    (mergeBranches c2src (c2tgt ++ (mergeBranches c2src c2tgt 20 "master").1)
        20 "master").2 = 1 := by
  decide

/-- C2 (amended): a second consecutive `merge_branches` call with no
intervening source edits makes no writes and returns a merged count of 0
provided every non-deleted latest source feature is dominated in the
post-first-merge target (a target latest of equal content and version
number at least the source's); without that proviso the source's version
counter can outrun the target's and the second call re-merges (§9 open
question). -/
theorem C2_amended_second_merge_quiet (srcRows tgtRows : List FV) (tb : Nat)
    (tbName : String)
    (h : sourceDominated srcRows
        (tgtRows ++ (mergeBranches srcRows tgtRows tb tbName).1) = true) :
    mergeBranches srcRows (tgtRows ++ (mergeBranches srcRows tgtRows tb tbName).1)
        tb tbName = ([], 0) :=
  merge_of_dominated srcRows _ tb tbName h

/-- C2 witness: with identical single-row ledgers the first merge writes
nothing, the domination proviso holds, and the amended theorem applies. -/
theorem C2_witness :
    sourceDominated c2tgt
        (c2tgt ++ (mergeBranches c2tgt c2tgt 20 "master").1) = true ∧
    mergeBranches c2tgt (c2tgt ++ (mergeBranches c2tgt c2tgt 20 "master").1)
        20 "master" = ([], 0) :=
  ⟨by decide, C2_amended_second_merge_quiet c2tgt c2tgt 20 "master" (by decide)⟩

/-- A feature id is among the keys exactly when some row carries it. -/
theorem mem_featureKeys_aux (rows : List FV) (f : Nat) (acc : List Nat) :
    f ∈ rows.foldl
        (fun acc r => if r.feature_id ∈ acc then acc else acc ++ [r.feature_id]) acc ↔
      f ∈ acc ∨ ∃ r ∈ rows, r.feature_id = f := by
  induction rows generalizing acc with
  | nil => simp
  | cons r rs ih =>
    rw [List.foldl_cons, ih]
    by_cases hm : r.feature_id ∈ acc <;> simp only [if_pos, if_neg, hm, if_true,
      if_false, List.mem_append, List.mem_singleton, List.mem_cons] <;> aesop

/-- Key membership characterisation for `featureKeys`. -/
theorem mem_featureKeys (rows : List FV) (f : Nat) :
    f ∈ featureKeys rows ↔ ∃ r ∈ rows, r.feature_id = f := by
  unfold featureKeys
  rw [mem_featureKeys_aux]
  simp

/-- The latest row returned for a feature is one of its rows. -/
theorem latestFor_aux (rows : List FV) (f : Nat) (acc : Option FV) (v : FV)
    (h : rows.foldl
        (fun acc r =>
          if r.feature_id = f then
            match acc with
            | none => some r
            | some b => if r.version > b.version then some r else acc
          else acc) acc = some v) :
    acc = some v ∨ (v ∈ rows ∧ v.feature_id = f) := by
  induction rows generalizing acc with
  | nil => exact Or.inl h
  | cons r rs ih =>
    rw [List.foldl_cons] at h
    rcases ih _ h with h' | h'
    · by_cases hf : r.feature_id = f
      · rw [if_pos hf] at h'
        cases acc with
        | none =>
          have hrv : some r = some v := h'
          injection hrv with hrv
          subst hrv
          exact Or.inr ⟨List.mem_cons_self r rs, hf⟩
        | some b =>
          have h'' : (if r.version > b.version then some r else some b) = some v := h'
          by_cases hv : r.version > b.version
          · rw [if_pos hv] at h''
            injection h'' with h''
            subst h''
            exact Or.inr ⟨List.mem_cons_self r rs, hf⟩
          · rw [if_neg hv] at h''
            exact Or.inl h''
      · rw [if_neg hf] at h'
        exact Or.inl h'
    · exact Or.inr ⟨List.mem_cons_of_mem r h'.1, h'.2⟩

/-- `latestFor` yields a row of the ledger carrying the feature id. -/
theorem latestFor_eq_some (rows : List FV) (f : Nat) (v : FV)
    (h : latestFor rows f = some v) : v ∈ rows ∧ v.feature_id = f := by
  rcases latestFor_aux rows f none v h with h' | h'
  · cases h'
  · exact h'

/-- The fold underlying `latestFor` never drops a `some` accumulator. -/
theorem latestFor_mono (rows : List FV) (f : Nat) (b : FV) :
    (rows.foldl
        (fun acc r =>
          if r.feature_id = f then
            match acc with
            | none => some r
            | some b => if r.version > b.version then some r else acc
          else acc) (some b)).isSome := by
  induction rows generalizing b with
  | nil => rfl
  | cons r rs ih =>
    rw [List.foldl_cons]
    by_cases hf : r.feature_id = f
    · simp only [if_pos hf]
      by_cases hv : r.version > b.version
      · rw [if_pos hv]; exact ih r
      · rw [if_neg hv]; exact ih b
    · simp only [if_neg hf]; exact ih b

/-- A feature with at least one row has a latest row. -/
theorem latestFor_isSome (rows : List FV) (f : Nat)
    (h : ∃ r ∈ rows, r.feature_id = f) : (latestFor rows f).isSome := by
  unfold latestFor
  induction rows with
  | nil => simp at h
  | cons r rs ih =>
    rw [List.foldl_cons]
    by_cases hf : r.feature_id = f
    · simp only [if_pos hf]
      exact latestFor_mono rs f r
    · simp only [if_neg hf]
      apply ih
      rcases h with ⟨x, hx, hfx⟩
      rcases List.mem_cons.mp hx with h' | h'
      · exact absurd (h' ▸ hfx) hf
      · exact ⟨x, h', hfx⟩

/-- Membership in the latest-by-feature map is exactly `latestFor`. -/
theorem mem_latestByFeature (rows : List FV) (f : Nat) (v : FV) :
    (f, v) ∈ latestByFeature rows ↔ latestFor rows f = some v := by
  unfold latestByFeature
  rw [List.mem_filterMap]
  constructor
  · rintro ⟨k, hk, hmap⟩
    rcases Option.map_eq_some'.mp hmap with ⟨w, hw, hpair⟩
    have h1 : k = f := congrArg Prod.fst hpair
    have h2 : w = v := congrArg Prod.snd hpair
    exact h1 ▸ h2 ▸ hw
  · intro h
    refine ⟨f, ?_, by rw [h]; rfl⟩
    rw [mem_featureKeys]
    exact ⟨v, (latestFor_eq_some rows f v h).1, (latestFor_eq_some rows f v h).2⟩

/-- Membership characterisation of the detector's output. -/
theorem mem_detectConflicts (A B : List FV) (e : ConflictEntry) :
    e ∈ detectConflicts A B ↔
      latestFor A e.feature_id = some e.source_version ∧
      latestFor B e.feature_id = some e.target_version ∧
      detectConflictType e.source_version e.target_version = some e.conflict_type := by
  unfold detectConflicts
  rw [List.mem_filterMap]
  constructor
  · rintro ⟨p, hp, hmatch⟩
    rcases hl : latestFor B p.1 with _ | tv
    · rw [hl] at hmatch; cases hmatch
    · rw [hl] at hmatch
      rcases Option.map_eq_some'.mp hmatch with ⟨ty, hty, hentry⟩
      subst hentry
      exact ⟨(mem_latestByFeature A p.1 p.2).mp hp, hl, hty⟩
  · rintro ⟨hA, hB, hty⟩
    refine ⟨(e.feature_id, e.source_version), (mem_latestByFeature ..).mpr hA, ?_⟩
    rw [hB]
    show Option.map (fun ty =>
        ({ feature_id := e.feature_id, conflict_type := ty,
           source_version := e.source_version,
           target_version := e.target_version } : ConflictEntry))
      (detectConflictType e.source_version e.target_version) = some e
    rw [hty]
    rfl

set_option maxRecDepth 4000 in
/-- The classifier is symmetric in its two arguments. -/
theorem detectConflictType_symm (s t : FV) :
    detectConflictType s t = detectConflictType t s := by
  unfold detectConflictType
  generalize s.version = a
  generalize t.version = b
  generalize s.geometry = g1
  generalize t.geometry = g2
  generalize s.properties = p1
  generalize t.properties = p2
  generalize s.is_deleted = d1
  generalize t.is_deleted = d2
  by_cases h1 : a = 1 <;> by_cases h2 : b = 1 <;>
    by_cases h3 : 1 < a <;> by_cases h4 : 1 < b <;>
    by_cases h5 : g1 = g2 <;> by_cases h6 : p1 = p2 <;>
    cases d1 <;> cases d2 <;>
    simp_all [eq_comm, and_comm]

end Geodraft

namespace Geodraft

/-- C10: on identical persisted ledgers, `detect(A,B)` and `detect(B,A)`
report the same feature ids with the same conflict type, the source and
target version roles swapped: an entry belongs to `detectConflicts A B`
exactly when the role-swapped entry belongs to `detectConflicts B A`. -/
theorem C10_detect_symmetry (A B : List FV) (e : ConflictEntry) :
    e ∈ detectConflicts A B ↔
      ({ feature_id := e.feature_id, conflict_type := e.conflict_type,
         source_version := e.target_version,
         target_version := e.source_version } : ConflictEntry) ∈ detectConflicts B A := by
  rw [mem_detectConflicts, mem_detectConflicts]
  constructor
  · rintro ⟨hA, hB, hty⟩
    exact ⟨hB, hA, (detectConflictType_symm e.target_version e.source_version).trans hty⟩
  · rintro ⟨hB, hA, hty⟩
    exact ⟨hA, hB, (detectConflictType_symm e.source_version e.target_version).trans hty⟩

end Geodraft

namespace Geodraft

/-- No call to `resolve_conflict` changes the persisted conflict row:
every branch of the function raises before `conflict.save()` and the
atomic transaction commits nothing. -/
theorem resolvePersisted_unchanged (c : Conflict) (s : String) (r : Nat)
    (mg mp : Option Nat) : resolveConflictPersisted c s r mg mp = c := by
  unfold resolveConflictPersisted resolveConflict
  by_cases h1 : s = "SOURCE"
  · rw [if_pos h1]
    rfl
  · rw [if_neg h1]
    by_cases h2 : s = "TARGET"
    · rw [if_pos h2]
      rfl
    · rw [if_neg h2]
      by_cases h3 : s = "MANUAL"
      · rw [if_pos h3]
        cases mg <;> cases mp <;> rfl
      · rw [if_neg h3]

/-- C8: resolving with strategy MANUAL while either manual field is
absent fails with the ValidationError of the missing manual data, and
resolving with a strategy other than SOURCE, TARGET or MANUAL fails with
the invalid-strategy ValidationError; in both cases the persisted
conflict row (its `resolved` flag included) is unchanged. -/
theorem C8_resolution_validation (c : Conflict) (resolvedBy : Nat)
    (manualGeometry manualProperties : Option Nat) (strategy : String) :
    (strategy = "MANUAL" → manualGeometry = none ∨ manualProperties = none →
      resolveConflict c strategy resolvedBy manualGeometry manualProperties =
        .error (.validationError "Manual resolution requires geometry and properties") ∧
      resolveConflictPersisted c strategy resolvedBy manualGeometry manualProperties = c) ∧
    (strategy ≠ "SOURCE" → strategy ≠ "TARGET" → strategy ≠ "MANUAL" →
      resolveConflict c strategy resolvedBy manualGeometry manualProperties =
        .error (.validationError ("Invalid resolution strategy: " ++ strategy)) ∧
      resolveConflictPersisted c strategy resolvedBy manualGeometry manualProperties = c) := by
  constructor
  · rintro rfl hnone
    refine ⟨?_, resolvePersisted_unchanged ..⟩
    unfold resolveConflict
    rw [if_neg (by decide), if_neg (by decide), if_pos rfl]
    rcases hnone with h | h
    · subst h; cases manualProperties <;> rfl
    · subst h; cases manualGeometry <;> rfl
  · intro h1 h2 h3
    refine ⟨?_, resolvePersisted_unchanged ..⟩
    unfold resolveConflict
    rw [if_neg h1, if_neg h2, if_neg h3]

/-- C8 witness: MANUAL with no manual geometry and no manual properties
fails with the ValidationError and leaves the stored row unchanged. -/
theorem C8_witness :
    resolveConflict sampleConflict "MANUAL" 0 none none =
      .error (.validationError "Manual resolution requires geometry and properties") ∧
    resolveConflictPersisted sampleConflict "MANUAL" 0 none none = sampleConflict :=
  (C8_resolution_validation sampleConflict 0 none none "MANUAL").1 rfl (Or.inl rfl)

/-- C9: for every valid resolution input (SOURCE, TARGET, or MANUAL with
both manual fields), `resolve_conflict` raises the NameError at
`timezone.now()` — `timezone` is not defined in the services module —
before anything persists; the persisted row is unchanged and, for any
input whatsoever, no invocation ever marks a conflict resolved in the
store. -/
theorem C9_resolve_raises_name_error (c : Conflict) (strategy : String)
    (resolvedBy : Nat) (manualGeometry manualProperties : Option Nat)
    (h : validResolution strategy manualGeometry manualProperties) :
    resolveConflict c strategy resolvedBy manualGeometry manualProperties =
      .error .nameErrorTimezone ∧
    resolveConflictPersisted c strategy resolvedBy manualGeometry manualProperties = c ∧
    ∀ (s2 : String) (mg2 mp2 : Option Nat),
      (resolveConflictPersisted c s2 resolvedBy mg2 mp2).resolved = c.resolved := by
  refine ⟨?_, resolvePersisted_unchanged ..,
    fun s2 mg2 mp2 => by rw [resolvePersisted_unchanged]⟩
  rcases h with h | h | ⟨h, hg, hp⟩
  · subst h
    unfold resolveConflict
    rw [if_pos rfl]
    rfl
  · subst h
    unfold resolveConflict
    rw [if_neg (by decide), if_pos rfl]
    rfl
  · subst h
    cases manualGeometry with
    | none => simp at hg
    | some g =>
      cases manualProperties with
      | none => simp at hp
      | some p =>
        unfold resolveConflict
        rw [if_neg (by decide), if_neg (by decide), if_pos rfl]
        rfl

/-- C9 witness: a SOURCE resolution of a concrete unresolved conflict
raises the NameError and the stored row stays unresolved. -/
theorem C9_witness :
    resolveConflict sampleConflict "SOURCE" 0 none none = .error .nameErrorTimezone ∧
    resolveConflictPersisted sampleConflict "SOURCE" 0 none none = sampleConflict :=
  ⟨(C9_resolve_raises_name_error sampleConflict "SOURCE" 0 none none (Or.inl rfl)).1,
   (C9_resolve_raises_name_error sampleConflict "SOURCE" 0 none none (Or.inl rfl)).2.1⟩

/-- C3 (counterexample): on a merge request whose status is `merged`, a
superuser's reject call changes the status to `rejected` — a transition
out of a terminal state that the claim says is not permitted. -/
theorem C3_counterexample :
    wfMerged.mr.status = .merged ∧
    (rejectMergeRequest superUser wfMerged "nope").2.mr.status = .rejected := by
  constructor <;> rfl

/-- C3 (amended): neither `approve` nor `reject` reads the merge
request's current status, so there is no terminal-state protection: for
every authorized actor, reject always sets status `rejected`, and
approve with no unresolved conflicts always merges and sets status
`merged`, whatever the current status — `merged` and `rejected`
included. -/
theorem C3_amended_no_terminal_guard (u : UserCtx) (st : WorkflowState)
    (sourceRows : List FV) (tb : Nat) (tbName : String) (comment : String)
    (h : canApproveApi u = true) :
    (rejectMergeRequest u st comment).2.mr.status = .rejected ∧
    ((st.mrConflicts.filter fun c => !c.resolved).length = 0 →
      (approveMergeRequest u st sourceRows tb tbName).2.mr.status = .merged) := by
  constructor
  · unfold rejectMergeRequest
    rw [h, Bool.not_true, if_neg (by decide)]
  · intro h0
    unfold approveMergeRequest
    rw [h, Bool.not_true, if_neg (by decide), h0, if_neg (by decide)]

/-- C3 witness: the amended theorem applied to a superuser and the
terminal (`merged`) merge request of the counterexample. -/
theorem C3_witness :
    canApproveApi superUser = true ∧
    (rejectMergeRequest superUser wfMerged "").2.mr.status = .rejected ∧
    (approveMergeRequest superUser wfMerged [] 2 "t").2.mr.status = .merged :=
  ⟨rfl, (C3_amended_no_terminal_guard superUser wfMerged [] 2 "t" "" rfl).1,
   (C3_amended_no_terminal_guard superUser wfMerged [] 2 "t" "" rfl).2 rfl⟩

/-- C5: when at least one bound conflict is unresolved, `approve` changes
nothing — no merge rows, no status change, no reviewer stamp — and, for
every actor passing the permission gate, fails with the
unresolved-conflicts error (HTTP 400, the spec's ConflictError). -/
theorem C5_unresolved_conflicts_block_approve (u : UserCtx) (st : WorkflowState)
    (sourceRows : List FV) (tb : Nat) (tbName : String)
    (h : (st.mrConflicts.filter fun c => !c.resolved).length > 0) :
    (approveMergeRequest u st sourceRows tb tbName).2 = st ∧
    (canApproveApi u = true →
      (approveMergeRequest u st sourceRows tb tbName).1 =
        .unresolvedConflicts ((st.mrConflicts.filter fun c => !c.resolved).length)) := by
  constructor
  · unfold approveMergeRequest
    split
    · rfl
    · rfl
  · intro hc
    unfold approveMergeRequest
    rw [hc, Bool.not_true, if_neg (by decide), if_pos h]

/-- C5 witness: a superuser approving a merge request with one
unresolved conflict gets the unresolved-conflicts error and the state is
untouched. -/
theorem C5_witness :
    ((wfUnresolved.mrConflicts.filter fun c => !c.resolved).length > 0) ∧
    (approveMergeRequest superUser wfUnresolved [] 2 "t").2 = wfUnresolved ∧
    (approveMergeRequest superUser wfUnresolved [] 2 "t").1 = .unresolvedConflicts 1 :=
  ⟨by decide,
   (C5_unresolved_conflicts_block_approve superUser wfUnresolved [] 2 "t" (by decide)).1,
   (C5_unresolved_conflicts_block_approve superUser wfUnresolved [] 2 "t" (by decide)).2 rfl⟩

/-- C6: the API permission gate `_can_approve` consults only the global
`user.profile.role`, not the target branch's group and not
`can_approve_merges`: a non-superuser whose profile role is "validator"
but who holds no `UserRole` in any group is authorized by the API
(`canApproveApi`) and successfully approves — the merge request reaches
status `merged` — while the model-layer rule the claim states
(`can_user_approve`, group-scoped with `can_approve_merges`) refuses
that same actor. -/
theorem C6_code_bug_group_ignored :
    canApproveApi outsider = true ∧
    canUserApprove [] outsider (some 5) = false ∧
    (approveMergeRequest outsider wfPending [] 2 "master").1 = .mergedOk 0 ∧
    (approveMergeRequest outsider wfPending [] 2 "master").2.mr.status = .merged := by
  refine ⟨by decide, by decide, by decide, by decide⟩

/-- C7: the branch-delete endpoint can never set a master branch to
status `deleted`: every invocation leaves the branch row unchanged and
does not return success; whenever the caller passes the ownership /
superuser gate the failure is the "Cannot delete master branch" error
(the spec's ConflictError); and `PermissionManager.can_delete_branch`
refuses every user on a master branch. -/
theorem C7_master_never_deleted (u : UserCtx) (roles : List RoleRow) (b : BranchRec)
    (h : b.is_master = true) :
    (softDeleteBranch u b).2 = b ∧
    (softDeleteBranch u b).1 ≠ .deletedOk ∧
    ((b.created_by = u.userId ∨ u.is_superuser = true) →
      (softDeleteBranch u b).1 = .masterConflict) ∧
    canDeleteBranch roles u b = false := by
  by_cases hp : ((b.created_by != u.userId) && !u.is_superuser) = true
  · refine ⟨?_, ?_, ?_, ?_⟩
    · simp [softDeleteBranch, hp]
    · simp [softDeleteBranch, hp]
    · intro hperm
      exfalso
      simp only [Bool.and_eq_true, bne_iff_ne, Bool.not_eq_true'] at hp
      rcases hperm with h3 | h3
      · exact hp.1 h3
      · rw [h3] at hp
        simp at hp
    · simp [canDeleteBranch, h]
  · have hb := Bool.eq_false_iff.mpr hp
    refine ⟨?_, ?_, ?_, ?_⟩
    · simp [softDeleteBranch, hb, h]
    · simp [softDeleteBranch, hb, h]
    · intro _
      simp [softDeleteBranch, hb, h]
    · simp [canDeleteBranch, h]

/-- C7 witness: a superuser attempting to delete a concrete master
branch gets the cannot-delete-master error and the branch is unchanged;
the permission manager refuses as well. -/
theorem C7_witness :
    masterBranch.is_master = true ∧
    (softDeleteBranch superUser masterBranch).2 = masterBranch ∧
    (softDeleteBranch superUser masterBranch).1 = .masterConflict ∧
    canDeleteBranch [] superUser masterBranch = false :=
  ⟨rfl, (C7_master_never_deleted superUser [] masterBranch rfl).1,
   (C7_master_never_deleted superUser [] masterBranch rfl).2.2.1 (Or.inr rfl),
   (C7_master_never_deleted superUser [] masterBranch rfl).2.2.2⟩

/-- C4: updating a feature through the API does not append a version —
DRF's update path modifies the addressed row in place with its version
field bumped.  After create (version 1) followed by one update, the
store still holds a single row, the versions recorded for the
`(branch, feature_id)` pair are `[2]`, and the contiguity invariant
1..N fails (there is no version 1). -/
theorem C4_code_bug_update_mutates_row :
    c4store.length = 1 ∧
    versionsOf c4store 0 7 = [2] ∧
    ¬contiguousVersions (versionsOf c4store 0 7) := by
  have hv : versionsOf c4store 0 7 = [2] := by decide
  refine ⟨by decide, hv, ?_⟩
  rw [hv]
  unfold contiguousVersions
  rintro ⟨-, hmem⟩
  have h2 := (hmem 2).mp (by simp)
  exact absurd h2.2 (by decide)

end Geodraft
